/-
Verification of the IAM temporary-role vendor (iam-temprole-creator).

This file gives a shallow embedding, in Lean 4, of the parts of the
repository that the specification's claims are about:

  * the data model (permission tiers, session statuses, role requests,
    role sessions, audit log entries) from
    lambda_functions/iam_temprole_creator/models.py;
  * the settings defaults from lambda_functions/iam_temprole_creator/config.py,
    together with the external-id generator (get_external_id, backed by a
    full executable SHA-256);
  * the request validator, IP-origin check (including a faithful embedding
    of Python's ipaddress parsing of addresses and CIDR networks), session
    lifecycle operations (request_role, assume_role, revoke_session,
    cleanup_expired_sessions) from src/iam_temprole_creator/role_vendor.py;
  * the policy template machinery (generate_policy with its placeholder
    substitution and missing-variable scan, DEFAULT_TEMPLATES,
    create_permission_boundary) from
    lambda_functions/iam_temprole_creator/policy_manager.py;
  * a pure-state model of the DynamoDB session store
    (lambda_functions/iam_temprole_creator/database.py): the store is a list
    of session rows plus an append-only audit list; transport errors
    (botocore ClientError) and the randomness of uuid4 are modelled through
    an explicit environment record.

Datetimes are modelled as seconds (Nat); DynamoDB stores them as ISO-8601
strings whose lexicographic order agrees with chronological order, so the
Nat order is a faithful model of the store's comparisons.
-/
import Mathlib

set_option maxRecDepth 200000

namespace TempRole

/-- Models PermissionTier from models.py: the closed enumeration of tiers. -/
inductive PermissionTier where
  | readOnly
  | developer
  | admin
  | breakGlass
deriving DecidableEq, Repr

/-- Models SessionStatus from models.py. -/
inductive SessionStatus where
  | PENDING
  | ACTIVE
  | EXPIRED
  | REVOKED
  | FAILED
deriving DecidableEq, Repr

/-- Models the Settings class of config.py restricted to the fields the
lifecycle manager reads.  Field defaults are the pydantic defaults. -/
structure Settings where
  awsAccountId : Option String := none
  mfaRequired : Bool := true
  maxSessionDuration : Nat := 3600
  allowedIpRanges : List String := ["10.0.0.0/8", "172.16.0.0/12", "192.168.0.0/16"]
  allowedDepartments : List String := ["Engineering", "DevOps", "Security"]
deriving DecidableEq

/-- The settings value the module builds at import time (`settings = Settings()`)
when no IAM_ROLE_* environment overrides are present. -/
def defaultSettings : Settings := {}

/-- Models RoleRequest from models.py.  durationHours is an int constrained by
pydantic to 1..36; reason has min_length 10; both constraints are enforced by
roleRequestModelValid below, mirroring pydantic validation at construction. -/
structure RoleRequest where
  projectId : String
  userId : String
  permissionTier : PermissionTier
  durationHours : Nat
  reason : String
  ipAddress : Option String := none
  mfaUsed : Bool := false
  externalId : Option String := none
deriving DecidableEq

/-- Models the validate_duration pydantic validator of RoleRequest
(models.py lines 41-49): break-glass is capped at 1 hour and admin at
8 hours; the other tiers have no tier-specific cap there. -/
def validateDurationTier (tier : PermissionTier) (v : Nat) : Bool :=
  if tier = .breakGlass ∧ v > 1 then false
  else if tier = .admin ∧ v > 8 then false
  else true

/-- Pydantic model validation of RoleRequest: the Field bounds
(duration ge=1 le=36, reason min_length=10) plus validate_duration. -/
def roleRequestModelValid (r : RoleRequest) : Bool :=
  1 ≤ r.durationHours && r.durationHours ≤ 36 &&
    10 ≤ r.reason.length && validateDurationTier r.permissionTier r.durationHours

/-- Constructing a RoleRequest, as the CLI front end does: pydantic raises a
ValidationError (here: none) if the field bounds or validate_duration fail. -/
def mkRoleRequest (projectId userId : String) (tier : PermissionTier)
    (durationHours : Nat) (reason : String) (ipAddress : Option String)
    (mfaUsed : Bool) : Option RoleRequest :=
  let r : RoleRequest :=
    { projectId := projectId, userId := userId, permissionTier := tier,
      durationHours := durationHours, reason := reason,
      ipAddress := ipAddress, mfaUsed := mfaUsed, externalId := none }
  if roleRequestModelValid r then some r else none

/-- The fixed per-tier maximum session durations stated by the specification
(read-only 36h, developer 8h, admin 8h, break-glass 1h). -/
def tierMax : PermissionTier → Nat
  | .readOnly => 36
  | .developer => 8
  | .admin => 8
  | .breakGlass => 1

/-! IP address parsing, following CPython's ipaddress module, which
role_vendor._is_ip_allowed calls via ip_address and ip_network.  Any path on
which CPython raises is modelled as none. -/

/-- Decimal digit value of a character, none for non-digits. -/
def decDigitVal (c : Char) : Option Nat :=
  if '0' ≤ c ∧ c ≤ '9' then some (c.toNat - '0'.toNat) else none

/-- Hexadecimal digit value of a character, none for non-hex-digits. -/
def hexDigitVal (c : Char) : Option Nat :=
  if '0' ≤ c ∧ c ≤ '9' then some (c.toNat - '0'.toNat)
  else if 'a' ≤ c ∧ c ≤ 'f' then some (c.toNat - 'a'.toNat + 10)
  else if 'A' ≤ c ∧ c ≤ 'F' then some (c.toNat - 'A'.toNat + 10)
  else none

/-- Value of a list of digits interpreted in the given base, none if any
character is not a digit of that base (digitVal is the per-digit reader). -/
def digitsVal (digitVal : Char → Option Nat) (base : Nat) (cs : List Char) : Option Nat :=
  cs.foldlM (fun acc c => (digitVal c).map (fun d => acc * base + d)) 0

/-- Single-character split, agreeing with Python's str.split(sep) for a
one-character separator: the result always has one more piece than there are
separator occurrences, and an empty input yields one empty piece. -/
def splitOnChar (sep : Char) : List Char → List (List Char)
  | [] => [[]]
  | c :: rest =>
    let r := splitOnChar sep rest
    if c = sep then [] :: r
    else
      match r with
      | h :: t => (c :: h) :: t
      | [] => [[c]]

/-- Models IPv4Address._parse_octet: nonempty, ASCII decimal digits only, at
most 3 characters, no leading zero (except "0" itself), value at most 255. -/
def parseOctet (cs : List Char) : Option Nat :=
  if cs = [] then none
  else if ¬ cs.all (fun c => (decDigitVal c).isSome) then none
  else if cs.length > 3 then none
  else if cs ≠ ['0'] ∧ cs.headD '0' = '0' then none
  else match digitsVal decDigitVal 10 cs with
    | some v => if v > 255 then none else some v
    | none => none

/-- Models IPv4Address._ip_int_from_string: exactly four dot-separated octets,
big-endian value. -/
def parseIPv4Chars (cs : List Char) : Option Nat :=
  if cs = [] then none
  else match (splitOnChar '.' cs).mapM parseOctet with
    | some [a, b, c, d] => some (((a * 256 + b) * 256 + c) * 256 + d)
    | _ => none

/-- Models IPv6Address._parse_hextet (plus the int('', 16) failure on an empty
hextet): hex digits only, at most 4 characters, nonempty. -/
def parseHextet (cs : List Char) : Option Nat :=
  if ¬ cs.all (fun c => (hexDigitVal c).isSome) then none
  else if cs.length > 4 then none
  else if cs = [] then none
  else digitsVal hexDigitVal 16 cs

/-- Big-endian 16-bit-group accumulation of a list of hextet strings. -/
def parseHextets (parts : List (List Char)) (init : Nat) : Option Nat :=
  parts.foldlM (fun acc h => (parseHextet h).map (fun v => acc * 65536 + v)) init

/-- Models IPv6Address._ip_int_from_string (scope id already stripped):
split on ':', at least 3 parts, optional trailing IPv4-style suffix converted
to two hextets (rendered in lowercase hex as Python's '%x' does), at most
9 parts, at most one '::' gap, endpoint rules, then big-endian assembly of
the hextets around the gap. -/
def parseIPv6NoScope (cs : List Char) : Option Nat :=
  if cs = [] then none else
  let parts0 := splitOnChar ':' cs
  if parts0.length < 3 then none else
  let parts1 : Option (List (List Char)) :=
    if (parts0.getLastD []).contains '.' then
      match parseIPv4Chars (parts0.getLastD []) with
      | some v4 => some (parts0.dropLast ++
          [Nat.toDigits 16 ((v4 >>> 16) % 65536), Nat.toDigits 16 (v4 % 65536)])
      | none => none
    else some parts0
  match parts1 with
  | none => none
  | some parts =>
    if parts.length > 9 then none else
    let innerEmpties := (List.range parts.length).filter
      (fun i => decide (0 < i ∧ i + 1 < parts.length ∧ parts.getD i ['x'] = []))
    match innerEmpties with
    | [] =>
      if parts.length ≠ 8 then none
      else if parts.headD ['x'] = [] then none
      else if parts.getLastD ['x'] = [] then none
      else parseHextets parts 0
    | [i] =>
      let headEmpty := parts.headD ['x'] = []
      let lastEmpty := parts.getLastD ['x'] = []
      let hi := if headEmpty then i - 1 else i
      let lo := if lastEmpty then parts.length - i - 2 else parts.length - i - 1
      if headEmpty ∧ hi ≠ 0 then none
      else if lastEmpty ∧ lo ≠ 0 then none
      else if 8 - (hi + lo) < 1 then none
      else
        match parseHextets (parts.take hi) 0 with
        | none => none
        | some hiVal =>
          parseHextets (parts.drop (parts.length - lo)) (hiVal <<< (16 * (8 - (hi + lo))))
    | _ => none

/-- Models IPv6Address._split_scope_id followed by _ip_int_from_string: an
optional "%scope" suffix is permitted when the scope id is nonempty and has
no further '%'.  The scope id does not contribute to the address value. -/
def parseIPv6Chars (cs : List Char) : Option Nat :=
  match splitOnChar '%' cs with
  | [addr] => parseIPv6NoScope addr
  | [addr, scope] => if scope = [] then none else parseIPv6NoScope addr
  | _ => none

/-- An address value as produced by ipaddress.ip_address: IPv4 or IPv6. -/
inductive IPAddr where
  | v4 (ip : Nat)
  | v6 (ip : Nat)
deriving DecidableEq

/-- Models ipaddress.ip_address on a string: IPv4Address first (which rejects
any '/' before parsing), then IPv6Address, else a ValueError (none). -/
def parseIPAddress (s : String) : Option IPAddr :=
  if s.data.contains '/' then none
  else match parseIPv4Chars s.data with
    | some v => some (.v4 v)
    | none => (parseIPv6Chars s.data).map .v6

/-- A parsed network as produced by ipaddress.ip_network: version flag,
network address (host bits zero under strict=True) and netmask value. -/
structure IPNet where
  isV6 : Bool
  netAddr : Nat
  mask : Nat
deriving DecidableEq

/-- Models _prefix_from_prefix_string: ASCII decimal digits only (nonempty),
value within 0..maxLen. -/
def maskLenOfDigits (maxLen : Nat) (cs : List Char) : Option Nat :=
  if cs = [] then none
  else if ¬ cs.all (fun c => (decDigitVal c).isSome) then none
  else match digitsVal decDigitVal 10 cs with
    | some p => if p ≤ maxLen then some p else none
    | none => none

/-- The netmask integer for a prefix length: ALL_ONES ^ (ALL_ONES >> p). -/
def maskOfLen (bits p : Nat) : Nat := (2 ^ bits - 1) ^^^ ((2 ^ bits - 1) >>> p)

/-- Models _prefix_from_ip_int: the prefix length whose netmask equals the
given integer, none if the bit pattern mixes ones and zeroes. -/
def lenOfMaskInt (bits m : Nat) : Option Nat :=
  (List.range (bits + 1)).find? (fun p => maskOfLen bits p = m)

/-- Models IPv4Network._make_netmask on a string argument: a prefix-length
string, else a dotted-quad netmask, else a dotted-quad hostmask. -/
def v4MaskLenOfChars (cs : List Char) : Option Nat :=
  match maskLenOfDigits 32 cs with
  | some p => some p
  | none =>
    match parseIPv4Chars cs with
    | none => none
    | some m =>
      match lenOfMaskInt 32 m with
      | some p => some p
      | none => lenOfMaskInt 32 (m ^^^ (2 ^ 32 - 1))

/-- Models ipaddress.ip_network(cidr, strict=True) on a string: split on '/'
(at most one), try IPv4Network then IPv6Network.  A strict host-bits
violation raises ValueError out of ip_network; every raising path is none.
(IPv6Network accepts only a prefix-length string after the '/'.) -/
def parseNetwork (s : String) : Option IPNet :=
  match splitOnChar '/' s.data with
  | [] => none
  | addrChars :: restPieces =>
    if restPieces.length > 1 then none
    else
      match parseIPv4Chars addrChars with
      | some a =>
        let p? := match restPieces with
          | [] => some 32
          | m :: _ => v4MaskLenOfChars m
        match p? with
        | none => none
        | some p =>
          let mask := maskOfLen 32 p
          if a &&& mask ≠ a then none else some ⟨false, a, mask⟩
      | none =>
        match parseIPv6Chars addrChars with
        | none => none
        | some a =>
          let p? := match restPieces with
            | [] => some 128
            | m :: _ => maskLenOfDigits 128 m
          match p? with
          | none => none
          | some p =>
            let mask := maskOfLen 128 p
            if a &&& mask ≠ a then none else some ⟨true, a, mask⟩

/-- Models network __contains__: False across versions, otherwise
other ip AND netmask equals the network address. -/
def netContains (net : IPNet) (ip : IPAddr) : Bool :=
  match ip with
  | .v4 v => !net.isV6 && (v &&& net.mask == net.netAddr)
  | .v6 v => net.isV6 && (v &&& net.mask == net.netAddr)

/-- The loop body of _is_ip_allowed: for each configured CIDR in order, build
the network and test membership; a ValueError while building a network
escapes the loop into the except handler, which returns False. -/
def ipInNetworks (ip : IPAddr) : List String → Bool
  | [] => false
  | cidr :: rest =>
    match parseNetwork cidr with
    | none => false
    | some net => netContains net ip || ipInNetworks ip rest

/-- Models RoleVendor._is_ip_allowed (role_vendor.py lines 263-274): parse the
address (a ValueError yields False via the except handler), then scan the
allowed ranges. -/
def isIpAllowed (ranges : List String) (s : String) : Bool :=
  match parseIPAddress s with
  | none => false
  | some ip => ipInNetworks ip ranges

/-- Models RoleVendor._validate_request (role_vendor.py lines 244-261).
Python's `if request.ip_address` is falsy both for None and for the empty
string.  The duration ceiling is integer floor division of the configured
max_session_duration (seconds) by 3600. -/
def validateRequest (s : Settings) (r : RoleRequest) : Bool :=
  if (match r.ipAddress with
      | some ip => ip != "" && !isIpAllowed s.allowedIpRanges ip
      | none => false) then false
  else if s.mfaRequired ∧ ¬ r.mfaUsed then false
  else if r.durationHours > s.maxSessionDuration / 3600 then false
  else true

/-! SHA-256, as used by config.get_external_id via hashlib.sha256.  Machine
words are Nats reduced modulo 2^32. -/

/-- Reduction to a 32-bit word. -/
def w32 (n : Nat) : Nat := n % 4294967296

/-- Bitwise complement within 32 bits. -/
def compl32 (x : Nat) : Nat := 4294967295 - w32 x

/-- Right rotation of a 32-bit word. -/
def rotr32 (n x : Nat) : Nat := w32 ((x >>> n) ||| (x <<< (32 - n)))

/-- SHA-256 Ch function. -/
def shaCh (x y z : Nat) : Nat := (x &&& y) ^^^ (compl32 x &&& z)

/-- SHA-256 Maj function. -/
def shaMaj (x y z : Nat) : Nat := (x &&& y) ^^^ (x &&& z) ^^^ (y &&& z)

/-- SHA-256 capital sigma 0. -/
def shaS0 (x : Nat) : Nat := rotr32 2 x ^^^ rotr32 13 x ^^^ rotr32 22 x

/-- SHA-256 capital sigma 1. -/
def shaS1 (x : Nat) : Nat := rotr32 6 x ^^^ rotr32 11 x ^^^ rotr32 25 x

/-- SHA-256 lowercase sigma 0. -/
def shas0 (x : Nat) : Nat := rotr32 7 x ^^^ rotr32 18 x ^^^ (x >>> 3)

/-- SHA-256 lowercase sigma 1. -/
def shas1 (x : Nat) : Nat := rotr32 17 x ^^^ rotr32 19 x ^^^ (x >>> 10)

/-- The 64 SHA-256 round constants. -/
def shaK : List Nat :=
  [1116352408, 1899447441, 3049323471, 3921009573, 961987163,
   1508970993, 2453635748, 2870763221, 3624381080, 310598401,
   607225278, 1426881987, 1925078388, 2162078206, 2614888103,
   3248222580, 3835390401, 4022224774, 264347078, 604807628,
   770255983, 1249150122, 1555081692, 1996064986, 2554220882,
   2821834349, 2952996808, 3210313671, 3336571891, 3584528711,
   113926993, 338241895, 666307205, 773529912, 1294757372,
   1396182291, 1695183700, 1986661051, 2177026350, 2456956037,
   2730485921, 2820302411, 3259730800, 3345764771, 3516065817,
   3600352804, 4094571909, 275423344, 430227734, 506948616,
   659060556, 883997877, 958139571, 1322822218, 1537002063,
   1747873779, 1955562222, 2024104815, 2227730452, 2361852424,
   2428436474, 2756734187, 3204031479, 3329325298]

/-- The SHA-256 initial hash state. -/
def shaH0 : List Nat :=
  [1779033703, 3144134277, 1013904242, 2773480762,
   1359893119, 2600822924, 528734635, 1541459225]

/-- UTF-8 encoding of one character, as Python's str.encode(). -/
def utf8EncodeChar (c : Char) : List Nat :=
  let n := c.toNat
  if n < 128 then [n]
  else if n < 2048 then [192 + n / 64, 128 + n % 64]
  else if n < 65536 then [224 + n / 4096, 128 + (n / 64) % 64, 128 + n % 64]
  else [240 + n / 262144, 128 + (n / 4096) % 64, 128 + (n / 64) % 64, 128 + n % 64]

/-- UTF-8 byte sequence of a string. -/
def utf8Bytes (s : String) : List Nat := (s.data.map utf8EncodeChar).flatten

/-- Big-endian bytes of a value over the given number of bytes. -/
def beBytes : Nat → Nat → List Nat
  | 0, _ => []
  | k + 1, v => (v >>> (8 * k)) % 256 :: beBytes k v

/-- SHA-256 message padding: 0x80, zeros to 56 mod 64, 64-bit bit length. -/
def shaPad (msg : List Nat) : List Nat :=
  msg ++ [128] ++ List.replicate ((119 - msg.length % 64) % 64) 0 ++
    beBytes 8 (8 * msg.length)

/-- Split a byte list into chunks of the given positive size (fuel-driven
structural recursion so that it evaluates inside the kernel; fuel is the
list length, which suffices for any positive chunk size). -/
def chunksOfAux (k : Nat) : Nat → List Nat → List (List Nat)
  | 0, _ => []
  | _, [] => []
  | fuel + 1, l => l.take k :: chunksOfAux k fuel (l.drop k)

/-- Split a byte list into chunks of the given positive size. -/
def chunksOf (k : Nat) (l : List Nat) : List (List Nat) :=
  if k = 0 then [] else chunksOfAux k l.length l

/-- The 16 big-endian 32-bit words of a 64-byte block. -/
def blockWords (block : List Nat) : List Nat :=
  (chunksOf 4 block).map
    (fun b => ((b.getD 0 0 * 256 + b.getD 1 0) * 256 + b.getD 2 0) * 256 + b.getD 3 0)

/-- The 64-entry SHA-256 message schedule of a block. -/
def shaSchedule (block : List Nat) : List Nat :=
  (List.range 48).foldl
    (fun ws _ =>
      let n := ws.length
      ws ++ [w32 (shas1 (ws.getD (n - 2) 0) + ws.getD (n - 7) 0 +
                  shas0 (ws.getD (n - 15) 0) + ws.getD (n - 16) 0)])
    (blockWords block)

/-- One SHA-256 round on the eight-word working state. -/
def shaRound (st : List Nat) (kw : Nat × Nat) : List Nat :=
  match st with
  | [a, b, c, d, e, f, g, h] =>
    let t1 := w32 (h + shaS1 e + shaCh e f g + kw.1 + kw.2)
    let t2 := w32 (shaS0 a + shaMaj a b c)
    [w32 (t1 + t2), a, b, c, w32 (d + t1), e, f, g]
  | other => other

/-- Compression of one 64-byte block into the hash state. -/
def shaCompress (h : List Nat) (block : List Nat) : List Nat :=
  let fin := (shaK.zip (shaSchedule block)).foldl shaRound h
  (h.zip fin).map (fun p => w32 (p.1 + p.2))

/-- The eight 32-bit hash words of a byte message. -/
def sha256Words (msg : List Nat) : List Nat :=
  (chunksOf 64 (shaPad msg)).foldl shaCompress shaH0

/-- The hexadecimal digit characters. -/
def hexDigitChar (n : Nat) : Char :=
  if n < 10 then Char.ofNat ('0'.toNat + n)
  else Char.ofNat ('a'.toNat + (n - 10))

/-- Fixed-width 8-digit lowercase hex rendering of a 32-bit word. -/
def toHex8 (n : Nat) : List Char :=
  [hexDigitChar (n / 16 ^ 7 % 16), hexDigitChar (n / 16 ^ 6 % 16),
   hexDigitChar (n / 16 ^ 5 % 16), hexDigitChar (n / 16 ^ 4 % 16),
   hexDigitChar (n / 16 ^ 3 % 16), hexDigitChar (n / 16 ^ 2 % 16),
   hexDigitChar (n / 16 % 16), hexDigitChar (n % 16)]

/-- The 64 characters of hashlib.sha256(data).hexdigest() for a string. -/
def sha256HexChars (s : String) : List Char :=
  ((sha256Words (utf8Bytes s)).map toHex8).flatten

/-- Models config.get_external_id (config.py lines 72-79): the first 16 hex
characters of sha256 over "project:user:hourWindow", where hourWindow is the
Unix time in seconds floor-divided by 3600.  Time is passed explicitly as
the seconds value that time.time() reads. -/
def getExternalId (projectId userId : String) (timeSeconds : Nat) : String :=
  String.mk ((sha256HexChars
    (projectId ++ ":" ++ userId ++ ":" ++ toString (timeSeconds / 3600))).take 16)

/-! Policy template machinery from policy_manager.py. -/

/-- Models PolicyTemplate from models.py. -/
structure PolicyTemplate where
  name : String
  permissionTier : PermissionTier
  templateContent : String
  requiredVariables : List String
  version : String := "1.0"
deriving DecidableEq

/-- Does the list start with the given pattern? -/
def startsWithList (l pat : List Char) : Bool :=
  match l, pat with
  | _, [] => true
  | [], _ :: _ => false
  | a :: as1, b :: bs => a == b && startsWithList as1 bs

/-- Python str.replace for a nonempty pattern: left-to-right, non-overlapping
replacement of every occurrence.  Fuel-driven structural recursion (fuel is
the input length, enough because every step consumes at least one element
when the pattern is nonempty). -/
def replaceAux (pat sub : List Char) : Nat → List Char → List Char
  | 0, cs => cs
  | _, [] => []
  | fuel + 1, c :: rest =>
    if startsWithList (c :: rest) pat then
      sub ++ replaceAux pat sub fuel ((c :: rest).drop pat.length)
    else
      c :: replaceAux pat sub fuel rest

/-- Every occurrence of pat in cs replaced by sub (pat is never empty at the
call sites: it always has the shape "$" ++ "{" ++ name ++ "}"). -/
def replaceChars (cs pat sub : List Char) : List Char :=
  if pat = [] then cs else replaceAux pat sub cs.length cs

/-- The placeholder pattern for a variable name: a dollar sign, an opening
brace, the name, a closing brace. -/
def placeholderPat (name : String) : List Char :=
  '$' :: '\x7b' :: name.data ++ ['\x7d']

/-- The sequential substitution loop of PolicyManager.generate_policy
(policy_manager.py lines 44-47): for each supplied variable in order,
replace its placeholder everywhere in the content. -/
def substituteVars (content : String) (vars : List (String × String)) : String :=
  String.mk (vars.foldl
    (fun cs p => replaceChars cs (placeholderPat p.1) p.2.data) content.data)

/-- Models re.findall of the pattern backslash-dollar backslash-brace
([^brace]+) backslash-brace, scanning left to right: at a "$\x7b", a greedy
nonempty run of non-"\x7d" characters followed by "\x7d" is a match whose
body is captured and scanning resumes after it; otherwise scanning advances
one character.  Fuel-driven structural recursion (the fuel is the input
length; every step consumes at least one character). -/
def findPlaceholdersAux : Nat → List Char → List String
  | 0, _ => []
  | _, [] => []
  | fuel + 1, '$' :: '\x7b' :: rest =>
    let body := rest.takeWhile (fun c => c ≠ '\x7d')
    (match rest.drop body.length with
     | '\x7d' :: tail =>
       if body = [] then findPlaceholdersAux fuel ('\x7b' :: rest)
       else String.mk body :: findPlaceholdersAux fuel tail
     | _ => findPlaceholdersAux fuel ('\x7b' :: rest))
  | fuel + 1, _ :: rest => findPlaceholdersAux fuel rest

/-- All placeholder names occurring in a character list, in order, with
multiplicity, as PolicyManager._find_missing_variables's re.findall. -/
def findPlaceholders (cs : List Char) : List String :=
  findPlaceholdersAux cs.length cs

/-- Models PolicyManager._find_missing_variables (policy_manager.py lines
199-203): the placeholder names in the content that are not keys of the
supplied variables map. -/
def findMissingVariables (content : String) (vars : List (String × String)) : List String :=
  (findPlaceholders content.data).filter (fun v => ¬ vars.any (fun p => p.1 = v))

/-- Decidable equality for Except values, used to evaluate rendering results
on concrete inputs. -/
instance instDecEqExcept {ε α : Type} [DecidableEq ε] [DecidableEq α] :
    DecidableEq (Except ε α) := fun x y =>
  match x, y with
  | .ok a, .ok b =>
    if h : a = b then isTrue (by rw [h]) else isFalse (by intro hc; cases hc; exact h rfl)
  | .error a, .error b =>
    if h : a = b then isTrue (by rw [h]) else isFalse (by intro hc; cases hc; exact h rfl)
  | .ok _, .error _ => isFalse (by intro hc; cases hc)
  | .error _, .ok _ => isFalse (by intro hc; cases hc)

/-- Models PolicyManager.generate_policy (policy_manager.py lines 40-54):
substitute every supplied variable, then raise a ValueError naming the
missing variables when any placeholder with an unknown name remains, else
return the substituted content. -/
def generatePolicy (template : PolicyTemplate) (vars : List (String × String)) :
    Except (List String) String :=
  let content := substituteVars template.templateContent vars
  let missing := findMissingVariables content vars
  if missing = [] then .ok content else .error missing

/-- The read-only default template of policy_manager.DEFAULT_TEMPLATES. -/
def readOnlyTemplate : PolicyTemplate :=
  { name := "read-only-template", permissionTier := .readOnly,
    templateContent := "\x7b\n    \"Version\": \"2012-10-17\",\n    \"Statement\": [\n        \x7b\n            \"Effect\": \"Allow\",\n            \"Action\": [\n                \"s3:GetObject\",\n                \"s3:ListBucket\"\n            ],\n            \"Resource\": [\n                \"arn:aws:s3:::$\x7bprojectId\x7d-*\",\n                \"arn:aws:s3:::$\x7bprojectId\x7d-*/*\"\n            ]\n        \x7d,\n        \x7b\n            \"Effect\": \"Allow\",\n            \"Action\": [\n                \"ec2:Describe*\",\n                \"iam:Get*\",\n                \"iam:List*\"\n            ],\n            \"Resource\": \"*\"\n        \x7d\n    ]\n\x7d",
    requiredVariables := ["projectId"], version := "1.0" }

/-- The developer default template of policy_manager.DEFAULT_TEMPLATES. -/
def developerTemplate : PolicyTemplate :=
  { name := "developer-template", permissionTier := .developer,
    templateContent := "\x7b\n    \"Version\": \"2012-10-17\",\n    \"Statement\": [\n        \x7b\n            \"Effect\": \"Allow\",\n            \"Action\": [\n                \"s3:*\"\n            ],\n            \"Resource\": [\n                \"arn:aws:s3:::$\x7bprojectId\x7d-*\",\n                \"arn:aws:s3:::$\x7bprojectId\x7d-*/*\"\n            ]\n        \x7d,\n        \x7b\n            \"Effect\": \"Allow\",\n            \"Action\": [\n                \"ec2:*\",\n                \"lambda:*\",\n                \"iam:Get*\",\n                \"iam:List*\",\n                \"iam:PassRole\"\n            ],\n            \"Resource\": \"*\"\n        \x7d\n    ]\n\x7d",
    requiredVariables := ["projectId"], version := "1.0" }

/-- The admin default template of policy_manager.DEFAULT_TEMPLATES. -/
def adminTemplate : PolicyTemplate :=
  { name := "admin-template", permissionTier := .admin,
    templateContent := "\x7b\n    \"Version\": \"2012-10-17\",\n    \"Statement\": [\n        \x7b\n            \"Effect\": \"Allow\",\n            \"Action\": \"*\",\n            \"Resource\": \"*\"\n        \x7d\n    ]\n\x7d",
    requiredVariables := [], version := "1.0" }

/-- Models policy_manager.DEFAULT_TEMPLATES (lines 223-303): a dict keyed by
tier, with no entry for break-glass. -/
def DEFAULT_TEMPLATES : PermissionTier → Option PolicyTemplate
  | .readOnly => some readOnlyTemplate
  | .developer => some developerTemplate
  | .admin => some adminTemplate
  | .breakGlass => none

/-- An IAM Action field: either a single action string or a list. -/
inductive ActionSpec where
  | one (a : String)
  | many (as1 : List String)
deriving DecidableEq

/-- The action strings of an ActionSpec. -/
def ActionSpec.actions : ActionSpec → List String
  | .one a => [a]
  | .many as1 => as1

/-- One statement of a permission-boundary policy document. -/
structure PolicyStatement where
  effect : String
  action : ActionSpec
  resource : String
deriving DecidableEq

/-- A policy document with version marker and statements. -/
structure PolicyDoc where
  version : String
  statements : List PolicyStatement
deriving DecidableEq

/-- Models PolicyManager.create_permission_boundary (policy_manager.py lines
68-163): the hard-coded per-tier boundary documents (the function returns
their JSON dump; statement content is modelled structurally). -/
def createPermissionBoundary : PermissionTier → PolicyDoc
  | .readOnly =>
    { version := "2012-10-17",
      statements :=
        [ { effect := "Allow",
            action := .many ["s3:GetObject", "s3:ListBucket", "ec2:Describe*",
                             "iam:Get*", "iam:List*"],
            resource := "*" },
          { effect := "Deny",
            action := .many ["iam:*", "s3:PutObject", "s3:DeleteObject",
                             "ec2:Modify*", "ec2:Create*", "ec2:Delete*"],
            resource := "*" } ] }
  | .developer =>
    { version := "2012-10-17",
      statements :=
        [ { effect := "Allow",
            action := .many ["s3:*", "ec2:*", "lambda:*", "iam:Get*",
                             "iam:List*", "iam:PassRole"],
            resource := "*" },
          { effect := "Deny",
            action := .many ["iam:CreateRole", "iam:DeleteRole",
                             "iam:AttachRolePolicy", "iam:DetachRolePolicy",
                             "iam:PutRolePolicy", "iam:DeleteRolePolicy",
                             "kms:DeleteKey", "kms:ScheduleKeyDeletion"],
            resource := "*" } ] }
  | .admin =>
    { version := "2012-10-17",
      statements :=
        [ { effect := "Allow", action := .one "*", resource := "*" },
          { effect := "Deny",
            action := .many ["iam:DeleteAccountPasswordPolicy",
                             "iam:DeleteAccountAlias", "iam:DeleteAccount",
                             "organizations:LeaveOrganization",
                             "organizations:DeleteOrganization"],
            resource := "*" } ] }
  | .breakGlass =>
    { version := "2012-10-17",
      statements := [ { effect := "Allow", action := .one "*", resource := "*" } ] }

/-- Models TrustPolicy.create_for_external_id (models.py lines 99-125) as
invoked by PolicyManager.create_trust_policy: the structured content of the
trust document (role_vendor passes request.external_id, which is Optional;
json.dumps renders a missing external id as null). -/
structure TrustPolicy where
  version : String
  externalId : Option String
  allowedDepartments : List String
  ipRanges : List String
  mfaMaxAge : Option String
deriving DecidableEq

/-- Models PolicyManager.create_trust_policy (policy_manager.py lines 56-66):
the MFA condition (max authentication age "3600") is present exactly when
mfa_required is set. -/
def createTrustPolicy (externalId : Option String) (allowedDepartments ipRanges : List String)
    (mfaRequired : Bool) : TrustPolicy :=
  { version := "2012-10-17", externalId := externalId,
    allowedDepartments := allowedDepartments, ipRanges := ipRanges,
    mfaMaxAge := if mfaRequired then some "3600" else none }

/-! The session store and the lifecycle operations of role_vendor.py.
DynamoDB (database.py) is modelled as a list of session rows plus an
append-only audit list.  Adapter outcomes that depend on the outside world
(S3 template fetch, IAM and STS call success, the generated uuid4, the
clock) are supplied through an explicit environment record. -/

/-- Models RoleSession from models.py (the fields the lifecycle operations
read; request_metadata is not modelled, no claim depends on it). -/
structure RoleSession where
  projectId : String
  sessionId : String
  userId : String
  roleArn : String
  permissionTier : PermissionTier
  requestedAt : Nat
  expiresAt : Nat
  status : SessionStatus
deriving DecidableEq

/-- Models AuditLog from models.py (the fields the vendor writes; the
timestamp and generated request id are not modelled). -/
structure AuditLog where
  userId : String
  action : String
  permissionTier : Option PermissionTier
  sessionDuration : Option Nat
  result : String
  hasErrorDetails : Bool
deriving DecidableEq

/-- The DynamoDB-backed state: session rows keyed by (ProjectId, SessionId),
the audit table, and the break-glass notifications published to SNS. -/
structure Database where
  sessions : List RoleSession
  audit : List AuditLog
  notifications : List String
deriving DecidableEq

/-- Models DynamoDBManager.get_session (database.py lines 43-59). -/
def getSession (db : Database) (pid sid : String) : Option RoleSession :=
  db.sessions.find? (fun s => decide (s.projectId = pid ∧ s.sessionId = sid))

/-- Models DynamoDBManager.update_session_status (database.py lines 61-85):
an unconditional SET of the Status attribute of the row with the given key —
the update expression carries no condition on the previous status, so any
stored status, terminal or not, is overwritten.  Returns True (the
ClientError transport failure is not modelled; DynamoDB's upsert of a
partial item when the key does not exist is also not modelled — every claim
concerns existing rows). -/
def updateSessionStatus (db : Database) (pid sid : String) (st : SessionStatus) :
    Database × Bool :=
  let upd : RoleSession → RoleSession :=
    fun s => if s.projectId = pid ∧ s.sessionId = sid then { s with status := st } else s
  ({ db with sessions := db.sessions.map upd }, true)

/-- Models DynamoDBManager.log_audit_event (database.py lines 147-161):
append to the audit table. -/
def logAudit (db : Database) (e : AuditLog) : Database :=
  { db with audit := db.audit ++ [e] }

/-- Models DynamoDBManager.get_expired_sessions (database.py lines 111-131):
all rows with ExpiresAt strictly before the current time whose Status is not
EXPIRED.  (REVOKED and FAILED rows are not excluded by the query.) -/
def getExpiredSessions (db : Database) (now : Nat) : List RoleSession :=
  db.sessions.filter (fun s => decide (s.expiresAt < now ∧ s.status ≠ .EXPIRED))

/-- The environment of a lifecycle run: adapter outcomes and ambient values
that the outside world chooses. -/
structure Env where
  storeTemplate : PermissionTier → Option PolicyTemplate
  createSessionOk : Bool
  createRoleOk : Bool
  putRolePolicyOk : Bool
  stsOk : Bool
  newSessionId : String
  now : Nat

/-- An IAM control-plane call issued while provisioning a role.  The
permissionsBoundary argument records the PermissionsBoundary parameter of
iam.create_role; role_vendor.py does not pass one, so the embedding of its
call always carries none there. -/
inductive IAMCall where
  | createRole (roleName : String) (trust : TrustPolicy) (maxSessionDuration : Nat)
      (permissionsBoundary : Option PolicyDoc)
  | putRolePolicy (roleName policyName policyDocument : String)
deriving DecidableEq

/-- The boundary document attached by a call, if any. -/
def IAMCall.boundary : IAMCall → Option PolicyDoc
  | .createRole _ _ _ b => b
  | .putRolePolicy _ _ _ => none

/-- Models config.get_role_arn; settings.aws_account_id is Optional and a
missing value is interpolated by the f-string as the text "None". -/
def getRoleArn (accountId : Option String) (roleName : String) : String :=
  "arn:aws:iam::" ++ (match accountId with | some a => a | none => "None") ++
    ":role/" ++ roleName

/-- Outcome of RoleVendor._create_temporary_role: the role ARN when it
succeeds, plus the IAM calls issued. -/
structure ProvisionResult where
  roleArn : Option String
  calls : List IAMCall
deriving DecidableEq

/-- Models RoleVendor._create_temporary_role (role_vendor.py lines 303-363).
Template selection (lines 308-314): the stored template is used when the S3
store returns one.  When it is missing, the fallback expression reads
policy_manager.DEFAULT_TEMPLATES — but policy_manager (imported at
role_vendor.py line 19) is the PolicyManager instance, and DEFAULT_TEMPLATES
is a module-level dict of policy_manager.py, not a class or instance
attribute, so that attribute access raises AttributeError; the generic
handler at lines 361-363 swallows it and the function returns None having
issued no IAM calls.  The compiled-in defaults are therefore unreachable
from provisioning, and a missing stored template is modelled as immediate
failure (none, no calls).  Otherwise the policy is rendered with
projectId/userId/sessionId (a rendering ValueError is likewise caught,
yielding None), the trust policy is built, then iam.create_role
(MaxSessionDuration capped at 3600) is issued followed by
iam.put_role_policy attaching the rendered document as the inline
TemporaryAccessPolicy.  No permission boundary is attached at any point.
Every failure returns none after the calls already issued. -/
def createTemporaryRole (env : Env) (s : Settings) (r : RoleRequest) (sessionId : String) :
    ProvisionResult :=
  let roleName := "temp-role-" ++ r.projectId ++ "-" ++ String.mk (sessionId.data.take 8)
  match env.storeTemplate r.permissionTier with
  | none => ⟨none, []⟩
  | some template =>
    match generatePolicy template
        [("projectId", r.projectId), ("userId", r.userId), ("sessionId", sessionId)] with
    | .error _ => ⟨none, []⟩
    | .ok policyDocument =>
      let trust := createTrustPolicy r.externalId s.allowedDepartments
        s.allowedIpRanges s.mfaRequired
      let callCreate := IAMCall.createRole roleName trust
        (min 3600 (r.durationHours * 3600)) none
      if ¬ env.createRoleOk then ⟨none, [callCreate]⟩
      else
        let callPut := IAMCall.putRolePolicy roleName "TemporaryAccessPolicy" policyDocument
        if ¬ env.putRolePolicyOk then ⟨none, [callCreate, callPut]⟩
        else ⟨some (getRoleArn s.awsAccountId roleName), [callCreate, callPut]⟩

/-- Outcome of RoleVendor.request_role: the returned session (none on every
failure), the resulting store state, and the IAM calls issued. -/
structure RequestOutcome where
  session : Option RoleSession
  db : Database
  calls : List IAMCall
deriving DecidableEq

/-- Models RoleVendor.request_role (role_vendor.py lines 31-85).
On validation failure it returns None at once.  Otherwise it stamps the
external id, persists a PENDING session (_create_session_record, lines
276-301; a put_item failure yields None with no further effect), provisions
the role, and either marks the session FAILED and returns None — writing no
audit entry on that branch — or marks it ACTIVE and logs a single
ROLE_REQUESTED SUCCESS audit entry.  (The generic exception handler, lines
76-85, is unreachable in this model because adapter failures are returned,
not raised.)  The ACTIVE update writes role_arn only into the metadata
attribute, so the stored row's RoleArn column keeps its initial empty
string; the returned in-memory session does carry the ARN. -/
def requestRole (env : Env) (s : Settings) (db : Database) (r0 : RoleRequest) :
    RequestOutcome :=
  if ¬ validateRequest s r0 then ⟨none, db, []⟩
  else
    let r := { r0 with externalId := some (getExternalId r0.projectId r0.userId env.now) }
    if ¬ env.createSessionOk then ⟨none, db, []⟩
    else
      let sess : RoleSession :=
        { projectId := r.projectId, sessionId := env.newSessionId, userId := r.userId,
          roleArn := "", permissionTier := r.permissionTier,
          requestedAt := env.now, expiresAt := env.now + r.durationHours * 3600,
          status := .PENDING }
      let db1 := { db with sessions := db.sessions ++ [sess] }
      let pr := createTemporaryRole env s r sess.sessionId
      match pr.roleArn with
      | none =>
        ⟨none, (updateSessionStatus db1 sess.projectId sess.sessionId .FAILED).1, pr.calls⟩
      | some arn =>
        let db2 := (updateSessionStatus db1 sess.projectId sess.sessionId .ACTIVE).1
        let db3 := logAudit db2
          { userId := r.userId, action := "ROLE_REQUESTED",
            permissionTier := some r.permissionTier,
            sessionDuration := some (r.durationHours * 3600),
            result := "SUCCESS", hasErrorDetails := false }
        ⟨some { sess with roleArn := arn, status := .ACTIVE }, db3, pr.calls⟩

/-- The front-end entry: construct the RoleRequest (pydantic validation) and,
when that succeeds, call request_role. -/
def submitRequest (env : Env) (s : Settings) (db : Database) (projectId userId : String)
    (tier : PermissionTier) (durationHours : Nat) (reason : String)
    (ipAddress : Option String) (mfaUsed : Bool) : RequestOutcome :=
  match mkRoleRequest projectId userId tier durationHours reason ipAddress mfaUsed with
  | none => ⟨none, db, []⟩
  | some r => requestRole env s db r

/-- Models Credentials from models.py (the assume-role response fields). -/
structure Credentials where
  accessKeyId : String
  secretAccessKey : String
  sessionToken : String
  expiration : Nat
  roleArn : String
  sessionName : String
deriving DecidableEq

/-- Models RoleVendor.assume_role (role_vendor.py lines 87-140).  A session
that is not ACTIVE raises a ValueError caught by the generic handler: None,
no audit, store untouched.  An expired session is first marked EXPIRED
(_expire_session) and the ValueError then lands in the generic handler:
None, no audit.  An STS ClientError logs a ROLE_ASSUMED FAILURE entry and
returns None.  Success logs ROLE_ASSUMED SUCCESS and returns credentials
(placeholder secret material stands for the STS response fields). -/
def assumeRole (env : Env) (db : Database) (sess : RoleSession)
    (sessionName : Option String) : Option Credentials × Database :=
  if sess.status ≠ .ACTIVE then (none, db)
  else if env.now > sess.expiresAt then
    (none, (updateSessionStatus db sess.projectId sess.sessionId .EXPIRED).1)
  else
    let name := match sessionName with
      | some n => if n = "" then "temp-role-" ++ String.mk (sess.sessionId.data.take 8) else n
      | none => "temp-role-" ++ String.mk (sess.sessionId.data.take 8)
    if ¬ env.stsOk then
      (none, logAudit db
        { userId := sess.userId, action := "ROLE_ASSUMED",
          permissionTier := some sess.permissionTier, sessionDuration := none,
          result := "FAILURE", hasErrorDetails := true })
    else
      (some { accessKeyId := "AKIA", secretAccessKey := "SECRET",
              sessionToken := "TOKEN",
              expiration := env.now + min 3600 (sess.expiresAt - env.now),
              roleArn := sess.roleArn, sessionName := name },
       logAudit db
        { userId := sess.userId, action := "ROLE_ASSUMED",
          permissionTier := some sess.permissionTier, sessionDuration := none,
          result := "SUCCESS", hasErrorDetails := false })

/-- Models RoleVendor.revoke_session (role_vendor.py lines 142-171): a
missing session returns False; otherwise the status is set to REVOKED
unconditionally — the current status, terminal or not, is never examined —
a ROLE_REVOKED SUCCESS entry is logged, break-glass sessions additionally
publish an SNS notification, and True is returned. -/
def revokeSession (db : Database) (pid sid : String) : Database × Bool :=
  match getSession db pid sid with
  | none => (db, false)
  | some sess =>
    let db1 := (updateSessionStatus db pid sid .REVOKED).1
    let db2 := logAudit db1
      { userId := sess.userId, action := "ROLE_REVOKED",
        permissionTier := some sess.permissionTier, sessionDuration := none,
        result := "SUCCESS", hasErrorDetails := false }
    let db3 :=
      if sess.permissionTier = .breakGlass then
        { db2 with notifications := db2.notifications ++ ["BREAK_GLASS_ACCESS"] }
      else db2
    (db3, true)

/-- The per-session step of RoleVendor.cleanup_expired_sessions: set the row
EXPIRED, log ROLE_EXPIRED SUCCESS, count it. -/
def sweepStep (acc : Database × Nat) (s : RoleSession) : Database × Nat :=
  let db1 := (updateSessionStatus acc.1 s.projectId s.sessionId .EXPIRED).1
  let db2 := logAudit db1
    { userId := s.userId, action := "ROLE_EXPIRED",
      permissionTier := some s.permissionTier, sessionDuration := none,
      result := "SUCCESS", hasErrorDetails := false }
  (db2, acc.2 + 1)

/-- Models RoleVendor.cleanup_expired_sessions (role_vendor.py lines
217-242): fetch the expired-session query results once, transition each to
EXPIRED with one audit entry per transition, and return the count. -/
def cleanupExpiredSessions (db : Database) (now : Nat) : Database × Nat :=
  (getExpiredSessions db now).foldl sweepStep (db, 0)

/-! Helper values and lemmas shared by the claim theorems. -/

/-- An empty store state. -/
def emptyDb : Database := { sessions := [], audit := [], notifications := [] }

/-- A benign environment: no stored templates (the S3 store is empty), all
adapters succeed, a fixed fresh session id, time zero. -/
def witnessEnv : Env :=
  { storeTemplate := fun _ => none, createSessionOk := true, createRoleOk := true,
    putRolePolicyOk := true, stsOk := true, newSessionId := "11112222-3333-4444", now := 0 }

/-- A request that passes every check under the default settings. -/
def validReq : RoleRequest :=
  { projectId := "proj1", userId := "user1", permissionTier := .readOnly,
    durationHours := 1, reason := "maintenance work", mfaUsed := true }

/-- If the requested duration exceeds the configured ceiling
(max_session_duration // 3600), the validator rejects. -/
theorem validateRequest_false_of_gt (s : Settings) (r : RoleRequest)
    (h : r.durationHours > s.maxSessionDuration / 3600) :
    validateRequest s r = false := by
  unfold validateRequest
  rw [if_pos h]
  simp

/-- A break-glass request accepted by the pydantic validator lasts at most
one hour. -/
theorem validateDurationTier_breakGlass (v : Nat)
    (h : validateDurationTier .breakGlass v = true) : v ≤ 1 := by
  by_contra hgt
  unfold validateDurationTier at h
  rw [if_pos ⟨rfl, by omega⟩] at h
  cases h

/-- An admin request accepted by the pydantic validator lasts at most eight
hours. -/
theorem validateDurationTier_admin (v : Nat)
    (h : validateDurationTier .admin v = true) : v ≤ 8 := by
  by_contra hgt
  unfold validateDurationTier at h
  rw [if_neg (by rintro ⟨h1, _⟩; cases h1), if_pos ⟨rfl, by omega⟩] at h
  cases h

/-- A request the validator accepts respects the configured ceiling. -/
theorem validateRequest_le_cap (s : Settings) (r : RoleRequest)
    (h : validateRequest s r = true) :
    r.durationHours ≤ s.maxSessionDuration / 3600 := by
  by_contra hgt
  rw [validateRequest_false_of_gt s r (by omega)] at h
  cases h

/-- C1: for every permission tier and every role request whose requested
duration (in hours) exceeds the tier's fixed maximum (read-only 36h,
developer 8h, admin 8h, break-glass 1h), the request is rejected by
validation (pydantic model validation or the vendor validator, under the
default configuration) and no session record is created: the returned
session is none and the store is unchanged. -/
theorem durationAboveTierMaxRejected (env : Env) (db : Database)
    (projectId userId : String) (tier : PermissionTier) (durationHours : Nat)
    (reason : String) (ipAddress : Option String) (mfaUsed : Bool)
    (h : durationHours > tierMax tier) :
    (submitRequest env defaultSettings db projectId userId tier durationHours
      reason ipAddress mfaUsed).session = none ∧
    (submitRequest env defaultSettings db projectId userId tier durationHours
      reason ipAddress mfaUsed).db = db := by
  rcases hmk : mkRoleRequest projectId userId tier durationHours reason ipAddress mfaUsed
    with _ | r
  · have hout : submitRequest env defaultSettings db projectId userId tier durationHours
        reason ipAddress mfaUsed = ⟨none, db, []⟩ := by
      unfold submitRequest
      rw [hmk]
    rw [hout]
    exact ⟨rfl, rfl⟩
  · have hvr : roleRequestModelValid
        ⟨projectId, userId, tier, durationHours, reason, ipAddress, mfaUsed, none⟩ = true ∧
        r = ⟨projectId, userId, tier, durationHours, reason, ipAddress, mfaUsed, none⟩ := by
      simp only [mkRoleRequest] at hmk
      split at hmk
      · exact ⟨by assumption, (Option.some.inj hmk).symm⟩
      · cases hmk
    obtain ⟨hvalid, hreq⟩ := hvr
    subst hreq
    simp only [roleRequestModelValid, Bool.and_eq_true, decide_eq_true_eq] at hvalid
    obtain ⟨⟨⟨h1, h36⟩, hlen⟩, hvd⟩ := hvalid
    have hfalse : validateRequest defaultSettings
        ⟨projectId, userId, tier, durationHours, reason, ipAddress, mfaUsed, none⟩ = false := by
      apply validateRequest_false_of_gt
      show durationHours > defaultSettings.maxSessionDuration / 3600
      have hcap : defaultSettings.maxSessionDuration / 3600 = 1 := rfl
      rw [hcap]
      cases tier with
      | readOnly => simp only [tierMax] at h; omega
      | developer => simp only [tierMax] at h; omega
      | admin =>
        have := validateDurationTier_admin durationHours hvd
        simp only [tierMax] at h
        omega
      | breakGlass =>
        have := validateDurationTier_breakGlass durationHours hvd
        simp only [tierMax] at h
        omega
    have hout : submitRequest env defaultSettings db projectId userId tier durationHours
        reason ipAddress mfaUsed = ⟨none, db, []⟩ := by
      unfold submitRequest
      rw [hmk]
      show requestRole env defaultSettings db
        ⟨projectId, userId, tier, durationHours, reason, ipAddress, mfaUsed, none⟩ = _
      unfold requestRole
      rw [hfalse]
      simp
    rw [hout]
    exact ⟨rfl, rfl⟩

/-- Witness for durationAboveTierMaxRejected at a concrete over-duration
break-glass request (the spec's own scenario: break-glass, 2 hours). -/
theorem durationAboveTierMaxRejectedApplied :
    (2 > tierMax .breakGlass) ∧
    (submitRequest witnessEnv defaultSettings emptyDb "proj1" "user1" .breakGlass 2
      "maintenance work" none true).session = none ∧
    (submitRequest witnessEnv defaultSettings emptyDb "proj1" "user1" .breakGlass 2
      "maintenance work" none true).db = emptyDb :=
  ⟨by decide,
   durationAboveTierMaxRejected witnessEnv emptyDb "proj1" "user1" .breakGlass 2
     "maintenance work" none true (by decide)⟩

/-- C10: the validator's global ceiling is max_session_duration // 3600 hours
(floor division of a seconds value): any request above it is rejected for
any settings; the default ceiling is 1 hour, so under default settings every
request whose duration exceeds 1 hour fails validation regardless of tier,
even though the request model itself admits durations up to 36 hours. -/
theorem globalDurationCeiling (s : Settings) (r : RoleRequest)
    (h : r.durationHours > s.maxSessionDuration / 3600) :
    validateRequest s r = false ∧
    defaultSettings.maxSessionDuration / 3600 = 1 ∧
    (mkRoleRequest "proj1" "user1" .readOnly 36 "maintenance work" none true).isSome = true :=
  ⟨validateRequest_false_of_gt s r h, rfl, by decide⟩

/-- Witness for globalDurationCeiling: a 2-hour read-only request under the
default settings exceeds the 1-hour default ceiling and is rejected. -/
theorem globalDurationCeilingApplied :
    ((validReq.durationHours + 1) > defaultSettings.maxSessionDuration / 3600) ∧
    validateRequest defaultSettings { validReq with durationHours := validReq.durationHours + 1 } = false ∧
    defaultSettings.maxSessionDuration / 3600 = 1 ∧
    (mkRoleRequest "proj1" "user1" .readOnly 36 "maintenance work" none true).isSome = true :=
  ⟨by decide,
   globalDurationCeiling defaultSettings { validReq with durationHours := validReq.durationHours + 1 }
     (by decide)⟩

/-- One SHA-256 round preserves the length of the working state. -/
theorem shaRound_length (st : List Nat) (kw : Nat × Nat) :
    (shaRound st kw).length = st.length := by
  unfold shaRound
  split
  · simp
  · rfl

/-- Folding rounds preserves the length of the working state. -/
theorem foldl_shaRound_length (l : List (Nat × Nat)) :
    ∀ st : List Nat, (l.foldl shaRound st).length = st.length := by
  induction l with
  | nil => intro st; rfl
  | cons x xs ih => intro st; rw [List.foldl_cons, ih, shaRound_length]

/-- Compressing a block preserves the length of the hash state. -/
theorem shaCompress_length (h b : List Nat) :
    (shaCompress h b).length = h.length := by
  unfold shaCompress
  rw [List.length_map, List.length_zip, foldl_shaRound_length]
  simp

/-- Folding block compressions preserves the length of the hash state. -/
theorem foldl_shaCompress_length (bs : List (List Nat)) :
    ∀ h : List Nat, (bs.foldl shaCompress h).length = h.length := by
  induction bs with
  | nil => intro h; rfl
  | cons b bs ih => intro h; rw [List.foldl_cons, ih, shaCompress_length]

/-- The hash state always has eight words. -/
theorem sha256Words_length (msg : List Nat) : (sha256Words msg).length = 8 := by
  unfold sha256Words
  rw [foldl_shaCompress_length]
  rfl

/-- Each hash word renders as exactly eight hex characters. -/
theorem toHex8_length (n : Nat) : (toHex8 n).length = 8 := rfl

/-- Rendering a word list in hex yields eight characters per word. -/
theorem flatten_toHex8_length (l : List Nat) :
    ((l.map toHex8).flatten).length = 8 * l.length := by
  induction l with
  | nil => rfl
  | cons x xs ih =>
    simp only [List.map_cons, List.flatten_cons, List.length_append, ih,
      toHex8_length, List.length_cons]
    ring

/-- The hex digest always has 64 characters. -/
theorem sha256HexChars_length (s : String) : (sha256HexChars s).length = 64 := by
  unfold sha256HexChars
  rw [flatten_toHex8_length, sha256Words_length]

/-- C9: the external correlation token generator is deterministic per hour:
two calls to get_external_id with the same project and user whose clock
readings fall in the same hour window (equal floor(time/3600)) return the
identical token, and the token has exactly 16 characters. -/
theorem externalIdHourlyDeterminism (projectId userId : String) (t1 t2 : Nat)
    (h : t1 / 3600 = t2 / 3600) :
    getExternalId projectId userId t1 = getExternalId projectId userId t2 ∧
    (getExternalId projectId userId t1).length = 16 := by
  constructor
  · unfold getExternalId
    rw [h]
  · show (String.mk ((sha256HexChars _).take 16)).length = 16
    have : ∀ cs : List Char, (String.mk cs).length = cs.length := fun cs => rfl
    rw [this, List.length_take, sha256HexChars_length]
    rfl

/-- Witness for externalIdHourlyDeterminism: two clock readings 59 minutes
apart inside the same hour window give the same token. -/
theorem externalIdHourlyDeterminismApplied :
    (7200 / 3600 = 10740 / 3600) ∧
    getExternalId "proj1" "user1" 7200 = getExternalId "proj1" "user1" 10740 ∧
    (getExternalId "proj1" "user1" 7200).length = 16 :=
  ⟨by decide, externalIdHourlyDeterminism "proj1" "user1" 7200 10740 (by decide)⟩

/-- The scan loop of _is_ip_allowed only reports an address allowed when some
configured range parses to a network that contains it. -/
theorem ipInNetworks_sound (ip : IPAddr) :
    ∀ rs : List String, ipInNetworks ip rs = true →
      ∃ cidr ∈ rs, ∃ net, parseNetwork cidr = some net ∧ netContains net ip = true := by
  intro rs
  induction rs with
  | nil => intro h; cases h
  | cons cidr rest ih =>
    intro h
    unfold ipInNetworks at h
    cases hn : parseNetwork cidr with
    | none => rw [hn] at h; cases h
    | some net =>
      rw [hn] at h
      rcases (Bool.or_eq_true _ _).mp h with hc | hr
      · exact ⟨cidr, List.mem_cons_self cidr rest, net, hn, hc⟩
      · obtain ⟨c2, hc2, net2, hp2, hm2⟩ := ih hr
        exact ⟨c2, List.mem_cons_of_mem cidr hc2, net2, hp2, hm2⟩

/-- C8: the origin check accepts a source address only if it parses as an IP
address and lies inside at least one configured allow-listed CIDR range that
itself parses to a network; any string that does not parse as an IP address
yields not-allowed (the ValueError is caught, failing closed). -/
theorem originCheckFailsClosed (ranges : List String) (addr : String) :
    (isIpAllowed ranges addr = true →
      ∃ ip, parseIPAddress addr = some ip ∧
        ∃ cidr ∈ ranges, ∃ net, parseNetwork cidr = some net ∧ netContains net ip = true) ∧
    (parseIPAddress addr = none → isIpAllowed ranges addr = false) := by
  constructor
  · intro h
    unfold isIpAllowed at h
    cases hp : parseIPAddress addr with
    | none => rw [hp] at h; cases h
    | some ip =>
      rw [hp] at h
      exact ⟨ip, rfl, ipInNetworks_sound ip ranges h⟩
  · intro hp
    unfold isIpAllowed
    rw [hp]

/-- Witness for originCheckFailsClosed: under the default allow-list,
10.1.2.3 is allowed and the soundness conclusion holds for it, while the
unparseable string "not-an-ip" is not allowed. -/
theorem originCheckFailsClosedApplied :
    isIpAllowed defaultSettings.allowedIpRanges "10.1.2.3" = true ∧
    (∃ ip, parseIPAddress "10.1.2.3" = some ip ∧
      ∃ cidr ∈ defaultSettings.allowedIpRanges, ∃ net,
        parseNetwork cidr = some net ∧ netContains net ip = true) ∧
    parseIPAddress "not-an-ip" = none ∧
    isIpAllowed defaultSettings.allowedIpRanges "not-an-ip" = false :=
  ⟨by decide,
   (originCheckFailsClosed defaultSettings.allowedIpRanges "10.1.2.3").1 (by decide),
   by decide,
   (originCheckFailsClosed defaultSettings.allowedIpRanges "not-an-ip").2 (by decide)⟩

/-- C6 failing input, evaluated: the claim requires that a request whose
tier has a compiled-in default template (here: read-only, which
DEFAULT_TEMPLATES covers) never fails solely because the stored template is
missing.  The code cannot honor it: the fallback at role_vendor.py line 312
reads DEFAULT_TEMPLATES off the PolicyManager instance, which has no such
attribute, so the AttributeError lands in the generic handler and
provisioning returns None without issuing a single IAM call — and the
otherwise-valid request fails, its session row marked FAILED.  This theorem
evaluates the modelled code at that failing input. -/
theorem missingTemplateAlwaysFails :
    (DEFAULT_TEMPLATES validReq.permissionTier).isSome = true ∧
    witnessEnv.storeTemplate validReq.permissionTier = none ∧
    createTemporaryRole witnessEnv defaultSettings validReq "11112222-3333-4444"
      = ⟨none, []⟩ ∧
    (requestRole witnessEnv defaultSettings emptyDb validReq).session = none ∧
    ((requestRole witnessEnv defaultSettings emptyDb validReq).db.sessions.map
      RoleSession.status) = [.FAILED] := by decide

/-- A template whose single placeholder is supplied with a value that itself
spells that placeholder. -/
def selfRefTemplate : PolicyTemplate :=
  { name := "self-ref", permissionTier := .readOnly,
    templateContent := "$\x7ba\x7d", requiredVariables := ["a"] }

/-- C7 counterexample: rendering CAN return a document that still contains a
placeholder.  With template content being the placeholder for "a" and the
caller supplying "a" mapped to that same placeholder text, generate_policy
returns the document unchanged — it still contains the placeholder "a", and
no error is raised because the remaining placeholder's name is among the
supplied variables.  This refutes "rendering never returns a document still
containing a placeholder" and the claimed if-and-only-if. -/
theorem renderPlaceholderClaimRefuted :
    generatePolicy selfRefTemplate [("a", "$\x7ba\x7d")] = .ok "$\x7ba\x7d" ∧
    findPlaceholders ("$\x7ba\x7d".data) = ["a"] := by decide

/-- C7 as amended: generate_policy raises an error naming the missing
variables exactly when, after sequential substitution, some remaining
placeholder has a name that is not among the supplied variables; a returned
document equals the substituted content and may still contain placeholders,
but only ones whose names are among the supplied variables. -/
theorem renderMissingCharacterization (t : PolicyTemplate) (vars : List (String × String)) :
    (∀ doc, generatePolicy t vars = .ok doc →
      doc = substituteVars t.templateContent vars ∧
      ∀ v ∈ findPlaceholders doc.data, vars.any (fun p => p.1 == v) = true) ∧
    (∀ ms, generatePolicy t vars = .error ms →
      ms ≠ [] ∧ ∀ v ∈ ms,
        v ∈ findPlaceholders (substituteVars t.templateContent vars).data ∧
        vars.any (fun p => p.1 == v) = false) := by
  constructor
  · intro doc hok
    simp only [generatePolicy] at hok
    split at hok
    · rename_i hmiss
      have hdoc : doc = substituteVars t.templateContent vars :=
        (Except.ok.inj hok).symm
      subst hdoc
      refine ⟨rfl, ?_⟩
      intro v hv
      unfold findMissingVariables at hmiss
      have := List.filter_eq_nil_iff.mp hmiss v hv
      simpa using this
    · cases hok
  · intro ms herr
    simp only [generatePolicy] at herr
    split at herr
    · cases herr
    · rename_i hmiss
      have hms : ms = findMissingVariables (substituteVars t.templateContent vars) vars :=
        (Except.error.inj herr).symm
      subst hms
      refine ⟨hmiss, ?_⟩
      intro v hv
      unfold findMissingVariables at hv
      have := List.mem_filter.mp hv
      simpa using this

/-- Witness for renderMissingCharacterization at the spec's own scenario:
rendering the read-only default (which contains the projectId placeholder)
with an empty variable map errors naming projectId, and each reported name
is an unresolved placeholder absent from the variable map. -/
theorem renderMissingCharacterizationApplied :
    generatePolicy readOnlyTemplate [] = .error ["projectId", "projectId"] ∧
    (["projectId", "projectId"] ≠ [] ∧ ∀ v ∈ ["projectId", "projectId"],
      v ∈ findPlaceholders (substituteVars readOnlyTemplate.templateContent []).data ∧
      List.any ([] : List (String × String)) (fun p => p.1 == v) = false) := by
  refine ⟨by decide, (renderMissingCharacterization readOnlyTemplate []).2
    ["projectId", "projectId"] (by decide)⟩

/-- The self-escalation actions the specification requires every boundary to
deny (role/policy mutation, key deletion); this is exactly the deny list the
code itself uses for the developer tier. -/
def selfEscalationActions : List String :=
  ["iam:CreateRole", "iam:DeleteRole", "iam:AttachRolePolicy", "iam:DetachRolePolicy",
   "iam:PutRolePolicy", "iam:DeleteRolePolicy", "kms:DeleteKey", "kms:ScheduleKeyDeletion"]

/-- A valid admin-tier request (one hour, MFA, no source address). -/
def adminReq : RoleRequest :=
  { projectId := "proj1", userId := "user1", permissionTier := .admin,
    durationHours := 1, reason := "incident response", mfaUsed := true }

/-- An environment whose S3 template store holds the admin template (as
upload_template would have stored it) and whose adapters all succeed, so
that provisioning can run to completion. -/
def stockedEnv : Env :=
  { witnessEnv with storeTemplate := fun _ => some adminTemplate }

/-- No IAM call issued by a provisioning run ever carries a permission
boundary: the code never passes PermissionsBoundary to create_role and never
attaches the create_permission_boundary output anywhere. -/
theorem createTemporaryRole_no_boundary (env : Env) (s : Settings) (r : RoleRequest)
    (sid : String) :
    ∀ c ∈ (createTemporaryRole env s r sid).calls, c.boundary = none := by
  intro c hc
  simp only [createTemporaryRole] at hc
  split at hc
  · simp at hc
  · split at hc
    · simp at hc
    · split at hc
      · simp at hc
        subst hc
        rfl
      · split at hc
        · simp at hc
          rcases hc with hc | hc <;> subst hc <;> rfl
        · simp at hc
          rcases hc with hc | hc <;> subst hc <;> rfl

/-- C2 counterexample: a fully successful admin-tier provisioning run (the
template store holds the admin template and every adapter succeeds) issues
its IAM calls with no permission boundary attached anywhere (create_role is
called without PermissionsBoundary and only the rendered policy is attached
as an inline policy), and the admin-tier boundary document contains no Deny
statement covering any self-escalation action (its denies are only
account/organization deletion actions); the break-glass boundary contains no
Deny statement at all. -/
theorem permissionBoundaryClaimRefuted :
    ((createTemporaryRole stockedEnv defaultSettings adminReq "aaaabbbb-cccc").roleArn).isSome
      = true ∧
    ((createTemporaryRole stockedEnv defaultSettings adminReq "aaaabbbb-cccc").calls.all
      (fun c => c.boundary == none)) = true ∧
    ((createPermissionBoundary .admin).statements.all (fun st =>
      st.effect != "Deny" ||
        selfEscalationActions.all (fun a => !(st.action.actions.contains a)))) = true ∧
    ((createPermissionBoundary .breakGlass).statements.all
      (fun st => st.effect != "Deny")) = true := by
  refine ⟨by decide, ?_, by decide, by decide⟩
  have h := createTemporaryRole_no_boundary stockedEnv defaultSettings adminReq "aaaabbbb-cccc"
  rw [List.all_eq_true]
  intro c hc
  rw [h c hc]
  rfl

/-- C2 as amended: the permission-boundary generator exists but its output is
never attached — every provisioning run issues only boundary-free IAM calls
(trust document on create_role, rendered policy as inline put_role_policy) —
and among the per-tier boundary documents only read-only and developer deny
self-escalation (developer denies exactly the role/policy-mutation and
key-deletion actions; read-only denies all of iam:*), while the admin
boundary denies only account/organization deletion actions and the
break-glass boundary contains no Deny statement. -/
theorem permissionBoundaryActualBehavior (env : Env) (s : Settings) (r : RoleRequest)
    (sid : String) :
    (∀ c ∈ (createTemporaryRole env s r sid).calls, c.boundary = none) ∧
    ((createPermissionBoundary .developer).statements.any (fun st =>
      st.effect == "Deny" &&
        selfEscalationActions.all (fun a => st.action.actions.contains a))) = true ∧
    ((createPermissionBoundary .readOnly).statements.any (fun st =>
      st.effect == "Deny" && st.action.actions.contains "iam:*")) = true ∧
    ((createPermissionBoundary .admin).statements.all (fun st =>
      st.effect != "Deny" ||
        selfEscalationActions.all (fun a => !(st.action.actions.contains a)))) = true ∧
    ((createPermissionBoundary .breakGlass).statements.all
      (fun st => st.effect != "Deny")) = true :=
  ⟨createTemporaryRole_no_boundary env s r sid, by decide, by decide, by decide, by decide⟩

/-- Witness for permissionBoundaryActualBehavior at a concrete environment
(stocked template store, all adapters succeeding) and admin request. -/
theorem permissionBoundaryActualBehaviorApplied :
    (∀ c ∈ (createTemporaryRole stockedEnv defaultSettings adminReq "aaaabbbb-cccc").calls,
      c.boundary = none) ∧
    ((createPermissionBoundary .developer).statements.any (fun st =>
      st.effect == "Deny" &&
        selfEscalationActions.all (fun a => st.action.actions.contains a))) = true ∧
    ((createPermissionBoundary .readOnly).statements.any (fun st =>
      st.effect == "Deny" && st.action.actions.contains "iam:*")) = true ∧
    ((createPermissionBoundary .admin).statements.all (fun st =>
      st.effect != "Deny" ||
        selfEscalationActions.all (fun a => !(st.action.actions.contains a)))) = true ∧
    ((createPermissionBoundary .breakGlass).statements.all
      (fun st => st.effect != "Deny")) = true :=
  permissionBoundaryActualBehavior stockedEnv defaultSettings adminReq "aaaabbbb-cccc"

/-- A session already in the terminal EXPIRED state. -/
def expiredSession : RoleSession :=
  { projectId := "proj1", sessionId := "sess-1", userId := "user1",
    roleArn := "arn:aws:iam::None:role/temp-role-proj1-11112222",
    permissionTier := .developer, requestedAt := 0, expiresAt := 100,
    status := .EXPIRED }

/-- A store holding exactly one terminal (EXPIRED) session. -/
def terminalDb : Database :=
  { sessions := [expiredSession], audit := [], notifications := [] }

/-- C3 counterexample: revoking a session whose status is the terminal state
EXPIRED is reported to the caller as a success (True) and silently rewrites
the stored status to REVOKED — the transition out of a terminal state is
applied, not rejected; likewise a direct status update on the same terminal
session silently sets it ACTIVE and reports success. -/
theorem terminalStatusClaimRefuted :
    expiredSession.status = .EXPIRED ∧
    (revokeSession terminalDb "proj1" "sess-1").2 = true ∧
    ((revokeSession terminalDb "proj1" "sess-1").1.sessions.map RoleSession.status)
      = [.REVOKED] ∧
    (updateSessionStatus terminalDb "proj1" "sess-1" .ACTIVE).2 = true ∧
    ((updateSessionStatus terminalDb "proj1" "sess-1" .ACTIVE).1.sessions.map
      RoleSession.status) = [.ACTIVE] := by decide

/-- C3 as amended: update_session_status applies the requested status
unconditionally (it never examines the stored status, terminal or not) and
reports success; revoke_session likewise succeeds on any existing session —
whatever its current status — setting it to REVOKED; only a missing session
is reported as an error (False) with the store unchanged. -/
theorem transitionsUnconditional (db : Database) (pid sid : String) (st : SessionStatus) :
    (updateSessionStatus db pid sid st).2 = true ∧
    (∀ x ∈ (updateSessionStatus db pid sid st).1.sessions,
      x.projectId = pid → x.sessionId = sid → x.status = st) ∧
    (∀ sess, getSession db pid sid = some sess →
      (revokeSession db pid sid).2 = true ∧
      ∀ x ∈ (revokeSession db pid sid).1.sessions,
        x.projectId = pid → x.sessionId = sid → x.status = .REVOKED) ∧
    (getSession db pid sid = none → revokeSession db pid sid = (db, false)) := by
  have hupd : ∀ x ∈ (updateSessionStatus db pid sid st).1.sessions,
      x.projectId = pid → x.sessionId = sid → x.status = st := by
    intro x hx
    simp only [updateSessionStatus, List.mem_map] at hx
    obtain ⟨s0, hs0, hx⟩ := hx
    subst hx
    by_cases hk : s0.projectId = pid ∧ s0.sessionId = sid
    · rw [if_pos hk]
      intro _ _
      rfl
    · rw [if_neg hk]
      intro h1 h2
      exact absurd ⟨h1, h2⟩ hk
  refine ⟨rfl, hupd, ?_, ?_⟩
  · intro sess hsess
    have hrw : revokeSession db pid sid =
        (let db1 := (updateSessionStatus db pid sid .REVOKED).1
         let db2 := logAudit db1
           { userId := sess.userId, action := "ROLE_REVOKED",
             permissionTier := some sess.permissionTier, sessionDuration := none,
             result := "SUCCESS", hasErrorDetails := false }
         let db3 :=
           if sess.permissionTier = .breakGlass then
             { db2 with notifications := db2.notifications ++ ["BREAK_GLASS_ACCESS"] }
           else db2
         (db3, true)) := by
      unfold revokeSession
      rw [hsess]
    rw [hrw]
    refine ⟨rfl, ?_⟩
    intro x hx h1 h2
    have hsessions : (let db1 := (updateSessionStatus db pid sid .REVOKED).1
         let db2 := logAudit db1
           { userId := sess.userId, action := "ROLE_REVOKED",
             permissionTier := some sess.permissionTier, sessionDuration := none,
             result := "SUCCESS", hasErrorDetails := false }
         let db3 :=
           if sess.permissionTier = .breakGlass then
             { db2 with notifications := db2.notifications ++ ["BREAK_GLASS_ACCESS"] }
           else db2
         (db3, true)).1.sessions = (updateSessionStatus db pid sid .REVOKED).1.sessions := by
      by_cases hb : sess.permissionTier = .breakGlass
      · simp only [if_pos hb]
        rfl
      · simp only [if_neg hb]
        rfl
    rw [hsessions] at hx
    have hupd2 : ∀ x ∈ (updateSessionStatus db pid sid .REVOKED).1.sessions,
        x.projectId = pid → x.sessionId = sid → x.status = .REVOKED := by
      intro y hy
      simp only [updateSessionStatus, List.mem_map] at hy
      obtain ⟨s0, hs0, hy⟩ := hy
      subst hy
      by_cases hk : s0.projectId = pid ∧ s0.sessionId = sid
      · rw [if_pos hk]
        intro _ _
        rfl
      · rw [if_neg hk]
        intro g1 g2
        exact absurd ⟨g1, g2⟩ hk
    exact hupd2 x hx h1 h2
  · intro hnone
    unfold revokeSession
    rw [hnone]

/-- Witness for transitionsUnconditional on the store with one EXPIRED
session: the update and the revoke both report success. -/
theorem transitionsUnconditionalApplied :
    (updateSessionStatus terminalDb "proj1" "sess-1" .FAILED).2 = true ∧
    (revokeSession terminalDb "proj1" "sess-1").2 = true := by
  refine ⟨(transitionsUnconditional terminalDb "proj1" "sess-1" .FAILED).1,
    ((transitionsUnconditional terminalDb "proj1" "sess-1" .FAILED).2.2.1
      expiredSession (by decide)).1⟩

/-- The benign environment except that iam.create_role fails (ClientError). -/
def failEnv : Env := { witnessEnv with createRoleOk := false }

/-- When iam.create_role fails, provisioning yields no role ARN. -/
theorem createTemporaryRole_none_of_createRoleFails (env : Env) (s : Settings)
    (r : RoleRequest) (sid : String) (h : env.createRoleOk = false) :
    (createTemporaryRole env s r sid).roleArn = none := by
  simp only [createTemporaryRole]
  split
  · rfl
  · split
    · rfl
    · rw [if_pos (by rw [h]; exact Bool.false_ne_true)]

/-- C4 counterexample: a valid request whose role provisioning fails (the
claim's own highlighted branch) sets the stored session to FAILED, returns
None — and writes no audit entry at all: the audit table stays empty.  (In
the code, the provisioning ClientError is swallowed inside
_create_temporary_role, so the request_role exception handler that would
log a FAILURE entry never runs.) -/
theorem auditClaimRefuted :
    (requestRole failEnv defaultSettings emptyDb validReq).session = none ∧
    ((requestRole failEnv defaultSettings emptyDb validReq).db.sessions.map
      RoleSession.status) = [.FAILED] ∧
    (requestRole failEnv defaultSettings emptyDb validReq).db.audit = [] := by decide

/-- C4 as amended: request_role writes an audit entry only on its fully
successful path; its provisioning-failure branch marks the session FAILED
and returns None with the audit table unchanged (and its validation-failure
and session-record-failure branches also leave the audit table unchanged);
assume_role writes audit entries only on successful assumption and on STS
ClientError — its not-ACTIVE branch and its expired branch (which also
flips the stored session to EXPIRED) return None without any audit entry. -/
theorem auditOnlyOnSuccessOutcome (env : Env) (s : Settings) (db : Database)
    (r : RoleRequest) (sess : RoleSession) (sn : Option String)
    (hval : validateRequest s r = true)
    (hcs : env.createSessionOk = true)
    (hfail : env.createRoleOk = false) :
    ((requestRole env s db r).session = none ∧
     (requestRole env s db r).db.audit = db.audit) ∧
    (sess.status ≠ .ACTIVE → assumeRole env db sess sn = (none, db)) ∧
    (sess.status = .ACTIVE → env.now > sess.expiresAt →
      (assumeRole env db sess sn).1 = none ∧
      (assumeRole env db sess sn).2.audit = db.audit) := by
  refine ⟨?_, ?_, ?_⟩
  · have harn := createTemporaryRole_none_of_createRoleFails env s
      { r with externalId := some (getExternalId r.projectId r.userId env.now) }
      env.newSessionId hfail
    simp only [requestRole, hval, hcs]
    rw [if_neg (by simp), if_neg (by simp)]
    rw [harn]
    exact ⟨rfl, rfl⟩
  · intro hst
    unfold assumeRole
    rw [if_pos hst]
  · intro hst hexp
    unfold assumeRole
    rw [if_neg (by rw [hst]; intro hc; exact hc rfl), if_pos hexp]
    exact ⟨rfl, rfl⟩

/-- Witness for auditOnlyOnSuccessOutcome: the concrete failing-provisioning
run on a valid request, with the EXPIRED session standing in for the
not-ACTIVE assume_role branch. -/
theorem auditOnlyOnSuccessOutcomeApplied :
    ((requestRole failEnv defaultSettings emptyDb validReq).session = none ∧
     (requestRole failEnv defaultSettings emptyDb validReq).db.audit = emptyDb.audit) ∧
    (expiredSession.status ≠ .ACTIVE →
      assumeRole failEnv emptyDb expiredSession none = (none, emptyDb)) ∧
    (expiredSession.status = .ACTIVE → failEnv.now > expiredSession.expiresAt →
      (assumeRole failEnv emptyDb expiredSession none).1 = none ∧
      (assumeRole failEnv emptyDb expiredSession none).2.audit = emptyDb.audit) :=
  auditOnlyOnSuccessOutcome failEnv defaultSettings emptyDb validReq expiredSession none
    (by decide) (by decide) (by decide)

/-- The DynamoDB key of a session row. -/
def sessionKey (s : RoleSession) : String × String := (s.projectId, s.sessionId)

/-- The sweep fold increments its counter once per processed session. -/
theorem sweepFold_count (l : List RoleSession) :
    ∀ (db : Database) (n : Nat), (l.foldl sweepStep (db, n)).2 = n + l.length := by
  induction l with
  | nil => intro db n; simp
  | cons a t ih =>
    intro db n
    rw [List.foldl_cons]
    have hpair : sweepStep (db, n) a = ((sweepStep (db, n) a).1, n + 1) := rfl
    rw [hpair, ih]
    simp only [List.length_cons]
    omega

/-- The sweep fold appends one audit entry per processed session. -/
theorem sweepFold_auditLen (l : List RoleSession) :
    ∀ (db : Database) (n : Nat),
      (l.foldl sweepStep (db, n)).1.audit.length = db.audit.length + l.length := by
  induction l with
  | nil => intro db n; simp
  | cons a t ih =>
    intro db n
    rw [List.foldl_cons]
    have hpair : sweepStep (db, n) a = ((sweepStep (db, n) a).1, n + 1) := rfl
    rw [hpair, ih]
    have hlen : (sweepStep (db, n) a).1.audit.length = db.audit.length + 1 := by
      simp [sweepStep, logAudit, updateSessionStatus]
    rw [hlen]
    simp only [List.length_cons]
    omega

/-- After the sweep fold, every session past the cutoff is EXPIRED, provided
every such session was either already EXPIRED or covered by the work list. -/
theorem sweepFold_expired (now : Nat) (l : List RoleSession) :
    ∀ (db : Database) (n : Nat),
      (∀ y ∈ db.sessions, y.expiresAt < now →
        y.status = .EXPIRED ∨ sessionKey y ∈ l.map sessionKey) →
      ∀ x ∈ (l.foldl sweepStep (db, n)).1.sessions,
        x.expiresAt < now → x.status = .EXPIRED := by
  induction l with
  | nil =>
    intro db n hcov x hx hlt
    rcases hcov x hx hlt with h | h
    · exact h
    · simp at h
  | cons a t ih =>
    intro db n hcov
    rw [List.foldl_cons]
    have hpair : sweepStep (db, n) a = ((sweepStep (db, n) a).1, n + 1) := rfl
    rw [hpair]
    apply ih
    intro y hy hylt
    have hsess : (sweepStep (db, n) a).1.sessions = db.sessions.map
        (fun s => if s.projectId = a.projectId ∧ s.sessionId = a.sessionId
          then { s with status := .EXPIRED } else s) := rfl
    rw [hsess] at hy
    obtain ⟨y0, hy0, hyeq⟩ := List.mem_map.mp hy
    by_cases hk : y0.projectId = a.projectId ∧ y0.sessionId = a.sessionId
    · rw [if_pos hk] at hyeq
      subst hyeq
      exact Or.inl rfl
    · rw [if_neg hk] at hyeq
      subst hyeq
      rcases hcov y0 hy0 hylt with h | h
      · exact Or.inl h
      · rw [List.map_cons, List.mem_cons] at h
        rcases h with h | h
        · exfalso
          apply hk
          unfold sessionKey at h
          exact ⟨congrArg Prod.fst h, congrArg Prod.snd h⟩
        · exact Or.inr h

/-- A REVOKED session whose expiry has passed. -/
def revokedStale : RoleSession :=
  { projectId := "proj1", sessionId := "sess-9", userId := "user1", roleArn := "",
    permissionTier := .developer, requestedAt := 0, expiresAt := 100,
    status := .REVOKED }

/-- A store holding exactly one stale REVOKED session. -/
def staleDb : Database :=
  { sessions := [revokedStale], audit := [], notifications := [] }

/-- C5 counterexample: the sweep does not transition exactly the PENDING or
ACTIVE sessions — a REVOKED (terminal) session whose expiry has passed is
also transitioned to EXPIRED and counted, because the query excludes only
the EXPIRED status. -/
theorem sweepClaimRefuted :
    revokedStale.status = .REVOKED ∧
    (cleanupExpiredSessions staleDb 200).2 = 1 ∧
    ((cleanupExpiredSessions staleDb 200).1.sessions.map RoleSession.status)
      = [.EXPIRED] := by decide

/-- C5 as amended: the sweep transitions to EXPIRED every session whose
expiry has passed and whose status is not EXPIRED — REVOKED and FAILED
included — returning the count of the query results with one audit entry per
transition; afterwards every session past the cutoff is EXPIRED, and it is
idempotent: a second run with no new expirations in between (every session
past the second cutoff was already past the first) transitions nothing and
returns 0, because already-EXPIRED sessions are excluded from the query. -/
theorem sweepBehavior (db : Database) (now : Nat) :
    (cleanupExpiredSessions db now).2 = (getExpiredSessions db now).length ∧
    (cleanupExpiredSessions db now).1.audit.length
      = db.audit.length + (getExpiredSessions db now).length ∧
    (∀ x ∈ (cleanupExpiredSessions db now).1.sessions,
      x.expiresAt < now → x.status = .EXPIRED) ∧
    (∀ now2, (∀ x ∈ (cleanupExpiredSessions db now).1.sessions,
        x.expiresAt < now2 → x.expiresAt < now) →
      cleanupExpiredSessions (cleanupExpiredSessions db now).1 now2
        = ((cleanupExpiredSessions db now).1, 0)) := by
  have hexp : ∀ x ∈ (cleanupExpiredSessions db now).1.sessions,
      x.expiresAt < now → x.status = .EXPIRED := by
    unfold cleanupExpiredSessions
    apply sweepFold_expired
    intro y hy hylt
    by_cases hst : y.status = .EXPIRED
    · exact Or.inl hst
    · refine Or.inr (List.mem_map_of_mem sessionKey ?_)
      unfold getExpiredSessions
      rw [List.mem_filter]
      exact ⟨hy, by simp [hylt, hst]⟩
  refine ⟨?_, ?_, hexp, ?_⟩
  · unfold cleanupExpiredSessions
    rw [sweepFold_count]
    omega
  · unfold cleanupExpiredSessions
    rw [sweepFold_auditLen]
  · intro now2 hno
    have hempty : getExpiredSessions (cleanupExpiredSessions db now).1 now2 = [] := by
      unfold getExpiredSessions
      rw [List.filter_eq_nil_iff]
      intro x hx
      simp only [decide_eq_true_eq, not_and, ne_eq, not_not]
      intro hlt
      exact hexp x hx (hno x hx hlt)
    show (getExpiredSessions (cleanupExpiredSessions db now).1 now2).foldl sweepStep
      ((cleanupExpiredSessions db now).1, 0) = ((cleanupExpiredSessions db now).1, 0)
    rw [hempty]
    rfl

/-- Witness for sweepBehavior on the store with one stale REVOKED session. -/
theorem sweepBehaviorApplied :
    (cleanupExpiredSessions staleDb 200).2 = (getExpiredSessions staleDb 200).length ∧
    (cleanupExpiredSessions staleDb 200).1.audit.length
      = staleDb.audit.length + (getExpiredSessions staleDb 200).length ∧
    (∀ x ∈ (cleanupExpiredSessions staleDb 200).1.sessions,
      x.expiresAt < 200 → x.status = .EXPIRED) ∧
    (∀ now2, (∀ x ∈ (cleanupExpiredSessions staleDb 200).1.sessions,
        x.expiresAt < now2 → x.expiresAt < 200) →
      cleanupExpiredSessions (cleanupExpiredSessions staleDb 200).1 now2
        = ((cleanupExpiredSessions staleDb 200).1, 0)) :=
  sweepBehavior staleDb 200

end TempRole
